import Mathlib

/-!
# Verification of the thermal-network simulation core

Shallow embedding of `src/simulation/mod.rs` from the `passive-logic-challenge`
repository. Rust `f32` values are modelled as exact rationals (`ℚ`): the spec's
numerical claims are about the exact arithmetic the code expresses, and `ℚ`
keeps every definition executable and every concrete instance decidable.
Rust `usize` indices become `ℕ`; `Vec<T>` becomes `List T`; the
`HashMap<usize, SolarPanel>` of panel attachments becomes an association list
`List (ℕ × SolarPanel)` folded in list order (the map's iteration order is
unspecified in Rust; every property proved here is iteration-order-independent).
The transcendental `f32::sin` has no rational counterpart, so the sine function
is passed to `handle_solar_panels`/`tick` as an explicit parameter `sinA`; no
claim depends on its values.
-/

/-- `glam::Vec3`, used only as an opaque position payload on nodes. -/
structure Vec3 where
  x : ℚ
  y : ℚ
  z : ℚ
deriving DecidableEq, Repr

/-- `struct Fluid { volume: f32, temp: f32 }` (src/simulation/mod.rs:202-206). -/
structure Fluid where
  volume : ℚ
  temp : ℚ
deriving DecidableEq, Repr

/-- `impl Add for Fluid` (src/simulation/mod.rs:208-221): volumes add; the
temperature is the volume-weighted average, with an explicit guard returning
temperature `0` when the combined volume is exactly `0`. -/
def Fluid.add (a rhs : Fluid) : Fluid :=
  let volume := a.volume + rhs.volume
  let temp := if volume = 0 then 0
    else a.temp * a.volume / volume + rhs.temp * rhs.volume / volume
  { volume := volume, temp := temp }

instance : Add Fluid := ⟨Fluid.add⟩

/-- `struct Node` (src/simulation/mod.rs:229-235). -/
structure Node where
  fluid : Fluid
  capacity : ℚ
  insulation : ℚ
  position : Vec3
deriving DecidableEq, Repr

/-- `struct Connection` (src/simulation/mod.rs:237-242): a directed edge from
node index `input` to node index `output`. -/
structure Connection where
  flow_rate : ℚ
  input : ℕ
  output : ℕ
deriving DecidableEq, Repr

/-- `struct SolarPanel` (src/simulation/mod.rs:244-248). -/
structure SolarPanel where
  area : ℚ
  efficiency : ℚ
deriving DecidableEq, Repr

/-- `struct Environment` (src/simulation/mod.rs:9-15). -/
structure Environment where
  sun_angle : ℚ
  sun_irradiance : ℚ
  cloud_cover : ℚ
  ambient_temp : ℚ
deriving DecidableEq, Repr

/-- `struct Simulation` (src/simulation/mod.rs:28-33). The panel attachments
(`HashMap<usize, SolarPanel>`) are modelled as an association list. -/
structure Simulation where
  nodes : List Node
  connections : List Connection
  solar_panels : List (ℕ × SolarPanel)
deriving DecidableEq, Repr

/-- `Simulation::new` (src/simulation/mod.rs:36-42). -/
def Simulation.new : Simulation :=
  { nodes := [], connections := [], solar_panels := [] }

/-- `Simulation::add_node` (src/simulation/mod.rs:44-60): pushes a node and
returns its index (the length before the push). -/
def Simulation.add_node (sim : Simulation) (volume temp insulation capacity : ℚ)
    (position : Vec3) : Simulation × ℕ :=
  ({ sim with
      nodes := sim.nodes ++
        [{ fluid := { volume := volume, temp := temp },
           insulation := insulation, capacity := capacity, position := position }] },
   sim.nodes.length)

/-- `Simulation::get_node` (src/simulation/mod.rs:62-64). -/
def Simulation.get_node (sim : Simulation) (node : ℕ) : Option Node :=
  sim.nodes[node]?

/-- `Simulation::contains_node` (src/simulation/mod.rs:166-168). -/
def Simulation.contains_node (sim : Simulation) (id : ℕ) : Prop :=
  id < sim.nodes.length

instance (sim : Simulation) (id : ℕ) : Decidable (sim.contains_node id) :=
  inferInstanceAs (Decidable (id < sim.nodes.length))

/-- `Simulation::connect_node` (src/simulation/mod.rs:66-74): pushes a
connection only when both endpoint indices are in bounds; otherwise a silent
no-op. -/
def Simulation.connect_node (sim : Simulation) (input output : ℕ)
    (flow_rate : ℚ) : Simulation :=
  if input < sim.nodes.length ∧ output < sim.nodes.length then
    { sim with
        connections := sim.connections ++
          [{ flow_rate := flow_rate, input := input, output := output }] }
  else
    sim

/-- `Simulation::handle_heat_losses` (src/simulation/mod.rs:103-108): every
node takes one explicit-Euler step toward the ambient temperature. -/
def Simulation.handle_heat_losses (sim : Simulation) (environment : Environment)
    (dt : ℚ) : Simulation :=
  { sim with
      nodes := sim.nodes.map fun node =>
        let temp_diff := node.fluid.temp - environment.ambient_temp
        { node with fluid := { node.fluid with
            temp := node.fluid.temp - temp_diff * (1 - node.insulation) * dt } } }

/-- Loop body of `Simulation::handle_solar_panels` (src/simulation/mod.rs:111-135)
for a single `(node-id, panel)` entry. `sinA` stands for `f32::sin` (the
`dbg!` wrapper in the source is an identity). A zero-volume node is skipped by
the explicit guard. The source indexes `self.nodes[*node]` unconditionally and
would panic on an out-of-bounds id — unreachable through the public API, since
`attach_solar_panel` validates the id and nodes are never removed; the model
leaves the nodes unchanged in that case, and theorems about this pass carry the
in-bounds hypothesis explicitly. -/
def solarStep (sinA : ℚ → ℚ) (environment : Environment) (dt : ℚ)
    (nodes : List Node) (entry : ℕ × SolarPanel) : List Node :=
  if h : entry.1 < nodes.length then
    let node := nodes.get ⟨entry.1, h⟩
    if node.fluid.volume = 0 then
      nodes
    else
      let q := environment.sun_irradiance
        * max (sinA environment.sun_angle) 0
        * (1 - environment.cloud_cover)
        * entry.2.area
        * dt
        * entry.2.efficiency
      let density : ℚ := 1
      let c : ℚ := 4.186
      let m := node.fluid.volume * density
      let d_temp := q / (m * c)
      nodes.set entry.1
        { node with fluid := { node.fluid with temp := node.fluid.temp + d_temp } }
  else
    nodes

/-- `Simulation::handle_solar_panels` (src/simulation/mod.rs:110-136): fold of
`solarStep` over the panel-attachment entries. -/
def Simulation.handle_solar_panels (sim : Simulation) (sinA : ℚ → ℚ)
    (environment : Environment) (dt : ℚ) : Simulation :=
  { sim with nodes := sim.solar_panels.foldl (solarStep sinA environment dt) sim.nodes }

/-- Loop body of `Simulation::handle_fluid_transfer` (src/simulation/mod.rs:139-163)
for a single connection, acting on the node list. Connections with an
out-of-bounds endpoint or with `input == output` are skipped by the guard. The
source re-reads `self.nodes[connection.input].fluid.temp` after subtracting the
transferred volume, and re-reads `self.nodes[connection.output]` when adding
the transferred fluid; both re-reads are mirrored here on the updated list. -/
def transferStep (dt : ℚ) (nodes : List Node) (connection : Connection) : List Node :=
  if h : connection.input < nodes.length ∧ connection.output < nodes.length ∧
      connection.input ≠ connection.output then
    let inputNode := nodes.get ⟨connection.input, h.1⟩
    let amount_available := min connection.flow_rate inputNode.fluid.volume
    let outputNode := nodes.get ⟨connection.output, h.2.1⟩
    let space_available := outputNode.capacity - outputNode.fluid.volume
    let amount_transfered := min (amount_available * dt) space_available
    let nodes1 := nodes.set connection.input
      { inputNode with fluid := { inputNode.fluid with
          volume := inputNode.fluid.volume - amount_transfered } }
    let fluid_transferred : Fluid :=
      { volume := amount_transfered,
        temp := (nodes1.get ⟨connection.input, by simpa [nodes1] using h.1⟩).fluid.temp }
    let outputNode1 := nodes1.get ⟨connection.output, by simpa [nodes1] using h.2.1⟩
    nodes1.set connection.output
      { outputNode1 with fluid := outputNode1.fluid + fluid_transferred }
  else
    nodes

/-- `Simulation::handle_fluid_transfer` (src/simulation/mod.rs:138-164): fold of
`transferStep` over the connections, in insertion order (the loop iterates
`&self.connections`, which the loop body never modifies). -/
def Simulation.handle_fluid_transfer (sim : Simulation) (dt : ℚ) : Simulation :=
  { sim with nodes := sim.connections.foldl (transferStep dt) sim.nodes }

/-- `Simulation::tick` (src/simulation/mod.rs:97-101): the three passes in their
fixed order. -/
def Simulation.tick (sim : Simulation) (sinA : ℚ → ℚ) (environment : Environment)
    (dt : ℚ) : Simulation :=
  ((sim.handle_heat_losses environment dt).handle_solar_panels sinA environment dt).handle_fluid_transfer dt

/-- State of `struct IterConnections` (src/simulation/mod.rs:171-174), minus the
borrow of the simulation, which is passed separately. -/
structure IterConnections where
  index : ℕ
deriving DecidableEq, Repr

/-- The `while self.index < self.simulation.connections.len()` loop of
`IterConnections::next` (src/simulation/mod.rs:179-199), translated with an
explicit fuel that bounds the remaining iterations (the loop advances `index`
by one each pass, so `connections.length - index` fuel is exact). `out` is the
loop's mutable `Option` accumulator: each in-bounds connection overwrites it. -/
def iterNextGo (sim : Simulation) :
    Option (ℚ × Node × Node) → ℕ → ℕ → Option (ℚ × Node × Node) × ℕ
  | out, index, 0 => (out, index)
  | out, index, fuel + 1 =>
    if h : index < sim.connections.length then
      let connection := sim.connections.get ⟨index, h⟩
      let out' :=
        if h2 : sim.nodes.length > connection.input ∧
            sim.nodes.length > connection.output then
          some (connection.flow_rate,
            sim.nodes.get ⟨connection.input, h2.1⟩,
            sim.nodes.get ⟨connection.output, h2.2⟩)
        else out
      iterNextGo sim out' (index + 1) fuel
    else
      (out, index)

/-- `IterConnections::next` (src/simulation/mod.rs:179-199): runs the scan loop
from the current index and returns the yielded item together with the advanced
iterator state. -/
def IterConnections.next (it : IterConnections) (sim : Simulation) :
    Option (ℚ × Node × Node) × IterConnections :=
  let r := iterNextGo sim none it.index (sim.connections.length - it.index)
  (r.1, { index := r.2 })

/-- `Simulation::connected_nodes` (src/simulation/mod.rs:84-89): a fresh
iterator starting at index `0`. -/
def Simulation.connected_nodes (_sim : Simulation) : IterConnections :=
  { index := 0 }

/-- Drives `IterConnections.next` until it returns `none`, collecting every
yielded item: the full sequence the iterator produces. The fuel
`connections.length + 1` is enough because each `next` call either yields an
item after advancing the index or ends the sequence. -/
def iterCollect (sim : Simulation) : IterConnections → ℕ → List (ℚ × Node × Node)
  | _, 0 => []
  | it, fuel + 1 =>
    match it.next sim with
    | (none, _) => []
    | (some item, it') => item :: iterCollect sim it' fuel

/-- All items yielded by iterating `Simulation::connected_nodes` to exhaustion. -/
def Simulation.connected_nodes_list (sim : Simulation) : List (ℚ × Node × Node) :=
  iterCollect sim sim.connected_nodes (sim.connections.length + 1)

/-- Total fluid volume held by a list of nodes. -/
def totalVolume (nodes : List Node) : ℚ :=
  (nodes.map fun n => n.fluid.volume).sum

/-! ## Basic facts about the fluid-combination operator -/

/-- Combined volume is the sum of the volumes (projection of `Fluid.add`). -/
theorem Fluid.add_volume (a b : Fluid) : (a + b).volume = a.volume + b.volume := rfl

/-- Combined temperature (projection of `Fluid.add`). -/
theorem Fluid.add_temp (a b : Fluid) :
    (a + b).temp = if a.volume + b.volume = 0 then 0
      else a.temp * a.volume / (a.volume + b.volume) +
        b.temp * b.volume / (a.volume + b.volume) := rfl

/-- `Fluid.add` as a structure literal (for evaluating concrete instances). -/
theorem Fluid.add_def (a b : Fluid) :
    a + b = { volume := a.volume + b.volume,
              temp := if a.volume + b.volume = 0 then 0
                else a.temp * a.volume / (a.volume + b.volume) +
                  b.temp * b.volume / (a.volume + b.volume) } := rfl

/-! ## Characterisation of one fluid-transfer step -/

/-- Closed form of `transferStep` when the guard passes: the source's
post-mutation re-reads collapse to the pre-state values (the input-volume
write does not touch the input temperature, and `input ≠ output` means the
output node is unaffected by the first write). -/
theorem transferStep_pos (dt : ℚ) (nodes : List Node) (c : Connection)
    (inputNode outputNode : Node) (t : ℚ)
    (h1 : c.input < nodes.length) (h2 : c.output < nodes.length)
    (h3 : c.input ≠ c.output)
    (hin : nodes.get ⟨c.input, h1⟩ = inputNode)
    (hout : nodes.get ⟨c.output, h2⟩ = outputNode)
    (ht : t = min (min c.flow_rate inputNode.fluid.volume * dt)
        (outputNode.capacity - outputNode.fluid.volume)) :
    transferStep dt nodes c =
      (nodes.set c.input { inputNode with fluid := { inputNode.fluid with
          volume := inputNode.fluid.volume - t } }).set c.output
        { outputNode with fluid := outputNode.fluid +
            { volume := t, temp := inputNode.fluid.temp } } := by
  subst hin hout ht
  rw [transferStep, dif_pos ⟨h1, h2, h3⟩]
  simp only [List.get_eq_getElem, List.getElem_set_self, List.getElem_set_ne h3]

/-- `transferStep` is the identity when the guard fails (out-of-bounds endpoint
or self-loop). -/
theorem transferStep_neg (dt : ℚ) (nodes : List Node) (c : Connection)
    (h : ¬(c.input < nodes.length ∧ c.output < nodes.length ∧ c.input ≠ c.output)) :
    transferStep dt nodes c = nodes := by
  rw [transferStep, dif_neg h]

/-! ## Volume bounds through the transfer pass -/

/-- Every node's fluid volume lies between `0` and its capacity. -/
def VolBounds (nodes : List Node) : Prop :=
  ∀ n ∈ nodes, 0 ≤ n.fluid.volume ∧ n.fluid.volume ≤ n.capacity

theorem volBounds_set (nodes : List Node) (i : ℕ) (n : Node)
    (h : VolBounds nodes) (hn : 0 ≤ n.fluid.volume ∧ n.fluid.volume ≤ n.capacity) :
    VolBounds (nodes.set i n) := fun x hx =>
  (List.mem_or_eq_of_mem_set hx).elim (h x) (fun e => e ▸ hn)

/-- One transfer step keeps every volume within `[0, capacity]` when
`0 ≤ dt ≤ 1` and the connection's flow rate is non-negative. -/
theorem transferStep_volBounds (dt : ℚ) (nodes : List Node) (c : Connection)
    (hdt0 : 0 ≤ dt) (hdt1 : dt ≤ 1) (hc : 0 ≤ c.flow_rate)
    (h : VolBounds nodes) : VolBounds (transferStep dt nodes c) := by
  by_cases hg : c.input < nodes.length ∧ c.output < nodes.length ∧ c.input ≠ c.output
  · obtain ⟨h1, h2, h3⟩ := hg
    rw [transferStep_pos dt nodes c (nodes.get ⟨c.input, h1⟩) (nodes.get ⟨c.output, h2⟩)
      _ h1 h2 h3 rfl rfl rfl]
    have hinB := h _ (by simp only [List.get_eq_getElem]; exact List.getElem_mem h1 :
      nodes.get ⟨c.input, h1⟩ ∈ nodes)
    have houtB := h _ (by simp only [List.get_eq_getElem]; exact List.getElem_mem h2 :
      nodes.get ⟨c.output, h2⟩ ∈ nodes)
    set vin := (nodes.get ⟨c.input, h1⟩).fluid.volume with hvin
    set vout := (nodes.get ⟨c.output, h2⟩).fluid.volume with hvout
    set capout := (nodes.get ⟨c.output, h2⟩).capacity with hcapout
    set t := min (min c.flow_rate vin * dt) (capout - vout) with htdef
    have ht0 : 0 ≤ t := le_min (mul_nonneg (le_min hc hinB.1) hdt0) (by linarith [houtB.2])
    have htin : t ≤ vin := le_trans (min_le_left _ _)
      (le_trans (mul_le_mul_of_nonneg_right (min_le_right _ _) hdt0)
        (mul_le_of_le_one_right hinB.1 hdt1))
    have htsp : t ≤ capout - vout := min_le_right _ _
    refine volBounds_set _ _ _ (volBounds_set _ _ _ h ⟨?_, ?_⟩) ⟨?_, ?_⟩
    · show 0 ≤ vin - t
      linarith
    · show vin - t ≤ (nodes.get ⟨c.input, h1⟩).capacity
      linarith [hinB.2]
    · show 0 ≤ vout + t
      linarith [houtB.1]
    · show vout + t ≤ capout
      linarith
  · rw [transferStep_neg dt nodes c hg]
    exact h

/-- The whole transfer pass (fold over any connection list) keeps every volume
within `[0, capacity]`. -/
theorem foldl_transferStep_volBounds (dt : ℚ) (hdt0 : 0 ≤ dt) (hdt1 : dt ≤ 1) :
    ∀ (cs : List Connection) (nodes : List Node),
      (∀ c ∈ cs, 0 ≤ c.flow_rate) → VolBounds nodes →
      VolBounds (cs.foldl (transferStep dt) nodes)
  | [], _, _, h => h
  | c :: cs, nodes, hflow, h => by
    rw [List.foldl_cons]
    exact foldl_transferStep_volBounds dt hdt0 hdt1 cs _
      (fun x hx => hflow x (List.mem_cons_of_mem c hx))
      (transferStep_volBounds dt nodes c hdt0 hdt1 (hflow c (List.mem_cons_self c cs)) h)

/-! ## Volume conservation -/

theorem totalVolume_set : ∀ (nodes : List Node) (i : ℕ) (n : Node) (h : i < nodes.length),
    totalVolume (nodes.set i n) =
      totalVolume nodes - (nodes.get ⟨i, h⟩).fluid.volume + n.fluid.volume
  | [], i, _, h => absurd h (Nat.not_lt_zero i)
  | _ :: _, 0, _, _ => by simp [totalVolume]; ring
  | a :: as, i + 1, n, h => by
    have ih := totalVolume_set as i n (Nat.lt_of_succ_lt_succ h)
    simp only [List.set_cons_succ, totalVolume, List.map_cons, List.sum_cons,
      List.get_eq_getElem, List.getElem_cons_succ] at ih ⊢
    rw [ih]
    ring

/-- One transfer step moves volume between two distinct nodes and hence
preserves the total: the amount subtracted from the input equals the amount
the `Fluid.add` on the output adds. -/
theorem transferStep_totalVolume (dt : ℚ) (nodes : List Node) (c : Connection) :
    totalVolume (transferStep dt nodes c) = totalVolume nodes := by
  by_cases hg : c.input < nodes.length ∧ c.output < nodes.length ∧ c.input ≠ c.output
  · obtain ⟨h1, h2, h3⟩ := hg
    rw [transferStep_pos dt nodes c (nodes.get ⟨c.input, h1⟩) (nodes.get ⟨c.output, h2⟩)
      _ h1 h2 h3 rfl rfl rfl]
    have h2' : c.output < (nodes.set c.input
        { nodes.get ⟨c.input, h1⟩ with fluid := { (nodes.get ⟨c.input, h1⟩).fluid with
            volume := (nodes.get ⟨c.input, h1⟩).fluid.volume -
              min (min c.flow_rate (nodes.get ⟨c.input, h1⟩).fluid.volume * dt)
                ((nodes.get ⟨c.output, h2⟩).capacity -
                  (nodes.get ⟨c.output, h2⟩).fluid.volume) } }).length := by
      simpa using h2
    rw [totalVolume_set _ _ _ h2', totalVolume_set _ _ _ h1]
    have hread : ((nodes.set c.input
        { nodes.get ⟨c.input, h1⟩ with fluid := { (nodes.get ⟨c.input, h1⟩).fluid with
            volume := (nodes.get ⟨c.input, h1⟩).fluid.volume -
              min (min c.flow_rate (nodes.get ⟨c.input, h1⟩).fluid.volume * dt)
                ((nodes.get ⟨c.output, h2⟩).capacity -
                  (nodes.get ⟨c.output, h2⟩).fluid.volume) } }).get
        ⟨c.output, h2'⟩) = nodes.get ⟨c.output, h2⟩ := by
      simp [List.get_eq_getElem, List.getElem_set_ne h3]
    rw [hread, Fluid.add_volume]
    ring
  · rw [transferStep_neg dt nodes c hg]

/-- The whole transfer pass preserves the total volume. -/
theorem foldl_transferStep_totalVolume (dt : ℚ) :
    ∀ (cs : List Connection) (nodes : List Node),
      totalVolume (cs.foldl (transferStep dt) nodes) = totalVolume nodes
  | [], _ => rfl
  | c :: cs, nodes => by
    rw [List.foldl_cons, foldl_transferStep_totalVolume dt cs _,
      transferStep_totalVolume]

/-! ## The heat-loss pass, node by node -/

/-- Pointwise description of `handle_heat_losses`: node `i` afterwards is node
`i` before with exactly the explicit-Euler temperature update applied. -/
theorem handle_heat_losses_getElem (sim : Simulation) (environment : Environment)
    (dt : ℚ) (i : ℕ) :
    (sim.handle_heat_losses environment dt).nodes[i]? =
      sim.nodes[i]?.map fun node =>
        { node with fluid := { node.fluid with
            temp := node.fluid.temp -
              (node.fluid.temp - environment.ambient_temp) * (1 - node.insulation) * dt } } := by
  simp only [Simulation.handle_heat_losses, List.getElem?_map]

/-! ## The solar pass, node by node -/

/-- The fields of a node other than its fluid temperature. -/
def nonThermal (n : Node) : ℚ × ℚ × ℚ × Vec3 :=
  (n.fluid.volume, n.capacity, n.insulation, n.position)

/-- One solar step changes at most one node, and only that node's fluid
temperature. -/
theorem solarStep_nonThermal (sinA : ℚ → ℚ) (environment : Environment) (dt : ℚ)
    (nodes : List Node) (entry : ℕ × SolarPanel) (i : ℕ) :
    (solarStep sinA environment dt nodes entry)[i]?.map nonThermal =
      nodes[i]?.map nonThermal := by
  rw [solarStep]
  by_cases h : entry.1 < nodes.length
  · rw [dif_pos h]
    by_cases hz : (nodes.get ⟨entry.1, h⟩).fluid.volume = 0
    · rw [if_pos hz]
    · rw [if_neg hz]
      by_cases hi : entry.1 = i
      · subst hi
        rw [List.getElem?_set_self' ]
        rw [List.getElem?_eq_getElem h]
        simp [nonThermal, List.get_eq_getElem]
      · rw [List.getElem?_set_ne hi]
  · rw [dif_neg h]

/-- The whole solar pass leaves every node's non-thermal data unchanged. -/
theorem foldl_solarStep_nonThermal (sinA : ℚ → ℚ) (environment : Environment) (dt : ℚ) :
    ∀ (ps : List (ℕ × SolarPanel)) (nodes : List Node) (i : ℕ),
      (ps.foldl (solarStep sinA environment dt) nodes)[i]?.map nonThermal =
        nodes[i]?.map nonThermal
  | [], _, _ => rfl
  | p :: ps, nodes, i => by
    rw [List.foldl_cons, foldl_solarStep_nonThermal sinA environment dt ps _ i,
      solarStep_nonThermal]

/-- One solar step leaves a zero-volume node untouched: if the step's entry
names that node the explicit guard skips it, and otherwise the write lands on a
different index. -/
theorem solarStep_zero_volume (sinA : ℚ → ℚ) (environment : Environment) (dt : ℚ)
    (nodes : List Node) (entry : ℕ × SolarPanel) (i : ℕ) (node : Node)
    (hb : nodes[i]? = some node) (hv : node.fluid.volume = 0) :
    (solarStep sinA environment dt nodes entry)[i]? = some node := by
  rw [solarStep]
  by_cases h : entry.1 < nodes.length
  · rw [dif_pos h]
    by_cases hz : (nodes.get ⟨entry.1, h⟩).fluid.volume = 0
    · rw [if_pos hz]
      exact hb
    · rw [if_neg hz]
      have hi : entry.1 ≠ i := by
        intro he
        subst he
        rw [List.getElem?_eq_getElem h] at hb
        rw [List.get_eq_getElem] at hz
        exact hz (by rw [Option.some_inj] at hb; rw [hb, hv])
      rw [List.getElem?_set_ne hi]
      exact hb
  · rw [dif_neg h]
    exact hb

/-- The whole solar pass leaves a zero-volume node untouched. -/
theorem foldl_solarStep_zero_volume (sinA : ℚ → ℚ) (environment : Environment) (dt : ℚ) :
    ∀ (ps : List (ℕ × SolarPanel)) (nodes : List Node) (i : ℕ) (node : Node),
      nodes[i]? = some node → node.fluid.volume = 0 →
      (ps.foldl (solarStep sinA environment dt) nodes)[i]? = some node
  | [], _, _, _, hb, _ => hb
  | p :: ps, nodes, i, node, hb, hv => by
    rw [List.foldl_cons]
    exact foldl_solarStep_zero_volume sinA environment dt ps _ i node
      (solarStep_zero_volume sinA environment dt nodes p i node hb hv) hv

/-- One solar step preserves the total volume (it only writes a temperature). -/
theorem solarStep_totalVolume (sinA : ℚ → ℚ) (environment : Environment) (dt : ℚ)
    (nodes : List Node) (entry : ℕ × SolarPanel) :
    totalVolume (solarStep sinA environment dt nodes entry) = totalVolume nodes := by
  rw [solarStep]
  by_cases h : entry.1 < nodes.length
  · rw [dif_pos h]
    by_cases hz : (nodes.get ⟨entry.1, h⟩).fluid.volume = 0
    · rw [if_pos hz]
    · rw [if_neg hz]
      rw [totalVolume_set _ _ _ h]
      ring
  · rw [dif_neg h]

/-- The whole solar pass preserves the total volume. -/
theorem foldl_solarStep_totalVolume (sinA : ℚ → ℚ) (environment : Environment) (dt : ℚ) :
    ∀ (ps : List (ℕ × SolarPanel)) (nodes : List Node),
      totalVolume (ps.foldl (solarStep sinA environment dt) nodes) = totalVolume nodes
  | [], _ => rfl
  | p :: ps, nodes => by
    rw [List.foldl_cons, foldl_solarStep_totalVolume sinA environment dt ps _,
      solarStep_totalVolume]

/-- The heat-loss pass preserves the total volume (it only writes temperatures). -/
theorem handle_heat_losses_totalVolume (sim : Simulation) (environment : Environment)
    (dt : ℚ) : totalVolume (sim.handle_heat_losses environment dt).nodes =
      totalVolume sim.nodes := by
  simp only [Simulation.handle_heat_losses, totalVolume, List.map_map]
  rfl

/-! ## Concrete fixtures -/

def vZero : Vec3 := { x := 0, y := 0, z := 0 }

/-- The hot node of the repository's `test_fluid_transfer` fixture. -/
def nodeHot : Node :=
  { fluid := { volume := 10, temp := 100 }, capacity := 100, insulation := 1, position := vZero }

/-- The cold node of the repository's `test_fluid_transfer` fixture. -/
def nodeCold : Node :=
  { fluid := { volume := 10, temp := 20 }, capacity := 100, insulation := 1, position := vZero }

def nodeMid : Node :=
  { fluid := { volume := 5, temp := 50 }, capacity := 100, insulation := 1, position := vZero }

def nodeTen : Node :=
  { fluid := { volume := 10, temp := 50 }, capacity := 100, insulation := 1, position := vZero }

def nodeZeroVol : Node :=
  { fluid := { volume := 0, temp := 15 }, capacity := 100, insulation := 1, position := vZero }

def envTest : Environment :=
  { sun_angle := 0, sun_irradiance := 1000, cloud_cover := 0, ambient_temp := 20 }

/-- Two nodes, two stored connections, both with in-bounds endpoints. -/
def simIter : Simulation :=
  { nodes := [nodeHot, nodeCold],
    connections := [{ flow_rate := 1, input := 0, output := 1 },
                    { flow_rate := 2, input := 1, output := 0 }],
    solar_panels := [] }

/-- Two in-bounds nodes, no connections (for `connect_node` claims). -/
def simTwo : Simulation :=
  { nodes := [nodeHot, nodeCold], connections := [], solar_panels := [] }

/-- The repository's `test_fluid_transfer` fixture: two nodes, one connection
with flow rate `1`. -/
def simTransfer : Simulation :=
  { nodes := [nodeHot, nodeCold],
    connections := [{ flow_rate := 1, input := 0, output := 1 }],
    solar_panels := [] }

/-- Like `simTransfer` but with flow rate `10`: at `dt = 2` the input node is
driven to a negative volume. -/
def simDt2 : Simulation :=
  { nodes := [nodeHot, nodeCold],
    connections := [{ flow_rate := 10, input := 0, output := 1 }],
    solar_panels := [] }

/-- A three-node chain on which `dt = -1` drives the middle node (the second
connection's input) to a negative volume. -/
def simDtNeg : Simulation :=
  { nodes := [nodeHot, nodeMid, nodeTen],
    connections := [{ flow_rate := 10, input := 0, output := 1 },
                    { flow_rate := 5, input := 1, output := 2 }],
    solar_panels := [] }

/-- A single fully insulated node above ambient temperature. -/
def simIns1 : Simulation :=
  { nodes := [nodeHot], connections := [], solar_panels := [] }

/-- One node above ambient with insulation `9/10` (the repository's
`test_heat_loss` insulation). -/
def nodeW1 : Node :=
  { fluid := { volume := 5, temp := 30 }, capacity := 100, insulation := 9/10,
    position := vZero }

def nodeW1after : Node :=
  { fluid := { volume := 5, temp := 29 }, capacity := 100, insulation := 9/10,
    position := vZero }

def simW1 : Simulation :=
  { nodes := [nodeW1], connections := [], solar_panels := [] }

/-- A zero-volume node and a normal node, each with an attached panel. -/
def simSolar : Simulation :=
  { nodes := [nodeZeroVol, nodeW1], connections := [],
    solar_panels := [(0, { area := 2, efficiency := 1/2 }),
                     (1, { area := 2, efficiency := 1/2 })] }

/-- The state of `nodeHot` after `simTransfer.handle_fluid_transfer 1`. -/
def nodeHotAfter : Node :=
  { fluid := { volume := 9, temp := 100 }, capacity := 100, insulation := 1,
    position := vZero }

/-! ## Claim theorems -/

/-- C1 (code evaluated at the failing input): on a two-node simulation whose
two stored connections both have in-bounds endpoints, iterating
`connected_nodes()` to exhaustion yields exactly one triple — the one for the
*last* stored connection — not one triple per connection in connection order:
the scan loop in `IterConnections::next` overwrites its accumulator on every
in-bounds connection and only returns once the index reaches the end, so a
single `next()` call consumes the whole connection list. -/
theorem connected_nodes_yields_only_last :
    (∀ c ∈ simIter.connections,
      c.input < simIter.nodes.length ∧ c.output < simIter.nodes.length) ∧
    simIter.connections.length = 2 ∧
    simIter.connected_nodes_list = [(2, nodeCold, nodeHot)] := by decide

/-- C2 (amended): when `0 ≤ dt ≤ 1`, all flow rates are non-negative and every
node's volume starts within `[0, capacity]`, then after `handle_fluid_transfer`
every node's volume — in particular every connection's output and input — is
still within `[0, capacity]`. -/
theorem handle_fluid_transfer_volume_bounds (sim : Simulation) (dt : ℚ)
    (hdt0 : 0 ≤ dt) (hdt1 : dt ≤ 1)
    (hflow : ∀ c ∈ sim.connections, 0 ≤ c.flow_rate)
    (hvol : ∀ n ∈ sim.nodes, 0 ≤ n.fluid.volume ∧ n.fluid.volume ≤ n.capacity) :
    ∀ n ∈ (sim.handle_fluid_transfer dt).nodes,
      0 ≤ n.fluid.volume ∧ n.fluid.volume ≤ n.capacity :=
  foldl_transferStep_volBounds dt hdt0 hdt1 sim.connections sim.nodes hflow hvol

theorem handle_fluid_transfer_volume_bounds_witness :
    0 ≤ nodeHotAfter.fluid.volume ∧ nodeHotAfter.fluid.volume ≤ nodeHotAfter.capacity :=
  handle_fluid_transfer_volume_bounds simTransfer 1 (by norm_num) (by norm_num)
    (by decide) (by decide) nodeHotAfter
    (by norm_num [Simulation.handle_fluid_transfer, simTransfer, transferStep,
      nodeHot, nodeCold, nodeHotAfter, vZero, Fluid.add_def])

/-- C2 (counterexample): the claim quantifies over *every* `dt`, but the pass
only bounds the transferred amount by the available volume for `dt ≤ 1` and
only keeps it non-negative for `dt ≥ 0`. At `dt = 2`, `simDt2`'s single
connection (input node `0`) leaves node `0` at volume `-10`; at `dt = -1`,
`simDtNeg`'s second connection (input node `1`) leaves node `1` at volume
`-10` — in both cases all volumes started in `[0, capacity]` and all flow
rates were non-negative, yet a connection's input node ends negative. -/
theorem transfer_bounds_fail_for_unrestricted_dt :
    ((∀ n ∈ simDt2.nodes, 0 ≤ n.fluid.volume ∧ n.fluid.volume ≤ n.capacity) ∧
     (∀ c ∈ simDt2.connections, 0 ≤ c.flow_rate) ∧
     (simDt2.connections[0]?.map fun c => c.input) = some 0 ∧
     ((simDt2.handle_fluid_transfer 2).nodes[0]?.map fun n => n.fluid.volume) =
       some ((-10 : ℚ))) ∧
    ((∀ n ∈ simDtNeg.nodes, 0 ≤ n.fluid.volume ∧ n.fluid.volume ≤ n.capacity) ∧
     (∀ c ∈ simDtNeg.connections, 0 ≤ c.flow_rate) ∧
     (simDtNeg.connections[1]?.map fun c => c.input) = some 1 ∧
     ((simDtNeg.handle_fluid_transfer (-1)).nodes[1]?.map fun n => n.fluid.volume) =
       some ((-10 : ℚ))) := by
  refine ⟨⟨by decide, by decide, by decide, ?_⟩, ⟨by decide, by decide, by decide, ?_⟩⟩
  · norm_num [Simulation.handle_fluid_transfer, simDt2, transferStep,
      nodeHot, nodeCold, vZero, Fluid.add_def]
  · norm_num [Simulation.handle_fluid_transfer, simDtNeg, transferStep,
      nodeHot, nodeMid, nodeTen, vZero, Fluid.add_def]

/-- C3: combining two fluids sums the volumes; the combined temperature is `0`
when the combined volume is exactly `0` and the volume-weighted average of the
two temperatures otherwise. -/
theorem fluid_add_spec (a b : Fluid) :
    (a + b).volume = a.volume + b.volume ∧
    ((a + b).volume = 0 → (a + b).temp = 0) ∧
    ((a + b).volume ≠ 0 →
      (a + b).temp = a.temp * a.volume / (a + b).volume +
        b.temp * b.volume / (a + b).volume) := by
  refine ⟨rfl, ?_, ?_⟩
  · intro h
    rw [Fluid.add_volume] at h
    rw [Fluid.add_temp, if_pos h]
  · intro h
    rw [Fluid.add_volume] at h
    rw [Fluid.add_temp, if_neg h, Fluid.add_volume]

theorem fluid_add_spec_witness :
    (Fluid.mk 1 30 + Fluid.mk 2 90).volume = (1 : ℚ) + 2 ∧
    (Fluid.mk 0 30 + Fluid.mk 0 90).temp = 0 ∧
    (Fluid.mk 1 30 + Fluid.mk 2 90).temp =
      30 * 1 / (Fluid.mk 1 30 + Fluid.mk 2 90).volume +
        90 * 2 / (Fluid.mk 1 30 + Fluid.mk 2 90).volume :=
  ⟨(fluid_add_spec (Fluid.mk 1 30) (Fluid.mk 2 90)).1,
   (fluid_add_spec (Fluid.mk 0 30) (Fluid.mk 0 90)).2.1 (by norm_num [Fluid.add_volume]),
   (fluid_add_spec (Fluid.mk 1 30) (Fluid.mk 2 90)).2.2 (by norm_num [Fluid.add_volume])⟩

/-- C4: `handle_heat_losses` rewrites every node to the same node with its
temperature decreased by exactly
`(temp - ambient_temp) * (1 - insulation) * dt` — a single explicit-Euler step
toward the ambient temperature — and changes nothing else about the node. -/
theorem handle_heat_losses_euler_step (sim : Simulation) (environment : Environment)
    (dt : ℚ) (i : ℕ) :
    (sim.handle_heat_losses environment dt).nodes[i]? =
      sim.nodes[i]?.map fun node =>
        { node with fluid := { node.fluid with
            temp := node.fluid.temp -
              (node.fluid.temp - environment.ambient_temp) *
                (1 - node.insulation) * dt } } :=
  handle_heat_losses_getElem sim environment dt i

/-- C5: a node whose fluid volume is exactly `0` is left with an unchanged
temperature (indeed entirely unchanged) by `handle_solar_panels`: the entry
for that node is skipped by the zero-volume guard before the thermal-mass
division, and entries for other nodes write elsewhere. The hypothesis on the
panel ids reflects that the source would panic (never return) on an
out-of-bounds id. -/
theorem handle_solar_panels_zero_volume_skip (sim : Simulation) (sinA : ℚ → ℚ)
    (environment : Environment) (dt : ℚ) (i : ℕ) (node : Node)
    (_hpanels : ∀ p ∈ sim.solar_panels, p.1 < sim.nodes.length)
    (hb : sim.nodes[i]? = some node) (hv : node.fluid.volume = 0) :
    ((sim.handle_solar_panels sinA environment dt).nodes[i]?.map
      fun n => n.fluid.temp) = some node.fluid.temp := by
  have h := foldl_solarStep_zero_volume sinA environment dt sim.solar_panels
    sim.nodes i node hb hv
  show ((sim.solar_panels.foldl (solarStep sinA environment dt) sim.nodes)[i]?.map
    fun n => n.fluid.temp) = some node.fluid.temp
  rw [h]
  rfl

theorem handle_solar_panels_zero_volume_skip_witness :
    ((simSolar.handle_solar_panels (fun _ => 1) envTest 1).nodes[0]?.map
      fun n => n.fluid.temp) = some nodeZeroVol.fluid.temp :=
  handle_solar_panels_zero_volume_skip simSolar (fun _ => 1) envTest 1 0 nodeZeroVol
    (by decide) (by rfl) (by rfl)

/-- C6 (amended): after `handle_heat_losses`, a node that started strictly
above ambient temperature has strictly decreased *provided the step actually
moves it*, i.e. `0 < (1 - insulation) * dt` (the claim as stated fails for a
fully insulated node or `dt = 0`, where the temperature is unchanged); still
above ambient afterwards implies `dt * (1 - insulation) ≤ 1`; and a node that
started exactly at ambient temperature is unchanged. -/
theorem handle_heat_losses_monotonicity (sim : Simulation) (environment : Environment)
    (dt : ℚ) (i : ℕ) (node node' : Node)
    (hb : sim.nodes[i]? = some node)
    (ha : (sim.handle_heat_losses environment dt).nodes[i]? = some node') :
    (environment.ambient_temp < node.fluid.temp → 0 < (1 - node.insulation) * dt →
      node'.fluid.temp < node.fluid.temp) ∧
    (environment.ambient_temp < node.fluid.temp →
      environment.ambient_temp < node'.fluid.temp →
      dt * (1 - node.insulation) ≤ 1) ∧
    (node.fluid.temp = environment.ambient_temp →
      node'.fluid.temp = node.fluid.temp) := by
  rw [handle_heat_losses_getElem, hb, Option.map_some', Option.some_inj] at ha
  have htemp : node'.fluid.temp = node.fluid.temp -
      (node.fluid.temp - environment.ambient_temp) * (1 - node.insulation) * dt := by
    rw [← ha]
  refine ⟨?_, ?_, ?_⟩
  · intro hgt hpos
    have hd : 0 < node.fluid.temp - environment.ambient_temp := by linarith
    have := mul_pos hd hpos
    rw [htemp]
    nlinarith
  · intro hgt hafter
    rw [htemp] at hafter
    nlinarith
  · intro heq
    rw [htemp, heq]
    ring

theorem handle_heat_losses_monotonicity_witness :
    nodeW1after.fluid.temp < nodeW1.fluid.temp :=
  (handle_heat_losses_monotonicity simW1 envTest 1 0 nodeW1 nodeW1after
    (by rfl)
    (by norm_num [Simulation.handle_heat_losses, simW1, nodeW1, nodeW1after,
      envTest, vZero])).1
    (by norm_num [envTest, nodeW1]) (by norm_num [nodeW1])

/-- C6 (counterexample): a fully insulated node (`insulation = 1`, a value the
data model allows and the repository's own `test_fluid_transfer` fixture uses)
that starts above ambient temperature is *unchanged* by `handle_heat_losses`,
refuting the unconditional "then temp_after < temp_before" at `dt = 1`. -/
theorem heat_loss_strict_decrease_fails_at_full_insulation :
    ¬(∀ node node' : Node,
        simIns1.nodes[0]? = some node →
        (simIns1.handle_heat_losses envTest 1).nodes[0]? = some node' →
        envTest.ambient_temp < node.fluid.temp →
        node'.fluid.temp < node.fluid.temp) := by
  intro hcl
  exact absurd
    (hcl nodeHot nodeHot (by rfl)
      (by norm_num [Simulation.handle_heat_losses, simIns1, nodeHot, envTest, vZero])
      (by norm_num [envTest, nodeHot]))
    (lt_irrefl _)

/-- C7: `connect_node` appends exactly the one new connection (changing nothing
else) when both ids are strictly below the node count, and returns the
simulation completely unchanged — with no error signal — otherwise. -/
theorem connect_node_appends_iff_valid (sim : Simulation) (input output : ℕ)
    (flow_rate : ℚ) :
    (input < sim.nodes.length → output < sim.nodes.length →
      sim.connect_node input output flow_rate =
        { sim with connections := sim.connections ++
            [{ flow_rate := flow_rate, input := input, output := output }] }) ∧
    (¬(input < sim.nodes.length ∧ output < sim.nodes.length) →
      sim.connect_node input output flow_rate = sim) := by
  constructor
  · intro h1 h2
    rw [Simulation.connect_node, if_pos ⟨h1, h2⟩]
  · intro h
    rw [Simulation.connect_node, if_neg h]

theorem connect_node_appends_iff_valid_witness :
    simTwo.connect_node 999 0 1 = simTwo ∧
    simTwo.connect_node 0 1 (3/2) =
      { simTwo with connections := simTwo.connections ++
          [{ flow_rate := 3/2, input := 0, output := 1 }] } :=
  ⟨(connect_node_appends_iff_valid simTwo 999 0 1).2 (by decide),
   (connect_node_appends_iff_valid simTwo 0 1 (3/2)).1 (by decide) (by decide)⟩

/-- C8: a self-loop on a valid node id is accepted by `connect_node` (it is
stored like any other connection), but a transfer step for a connection with
`input = output` is skipped by the guard and returns the node list — hence the
referenced node's fluid volume and temperature — unchanged. -/
theorem self_loop_accepted_and_skipped (sim : Simulation) (id : ℕ)
    (flow_rate dt : ℚ) (h : id < sim.nodes.length)
    (nodes : List Node) (c : Connection) (hc : c.input = c.output) :
    sim.connect_node id id flow_rate =
      { sim with connections := sim.connections ++
          [{ flow_rate := flow_rate, input := id, output := id }] } ∧
    transferStep dt nodes c = nodes := by
  constructor
  · rw [Simulation.connect_node, if_pos ⟨h, h⟩]
  · exact transferStep_neg dt nodes c (fun hg => hg.2.2 hc)

theorem self_loop_accepted_and_skipped_witness :
    simTwo.connect_node 0 0 1 =
      { simTwo with connections := simTwo.connections ++
          [{ flow_rate := 1, input := 0, output := 0 }] } ∧
    transferStep 1 simTwo.nodes { flow_rate := 1, input := 0, output := 0 } =
      simTwo.nodes :=
  self_loop_accepted_and_skipped simTwo 0 1 1 (by decide) simTwo.nodes
    { flow_rate := 1, input := 0, output := 0 } rfl

/-- C9: in exact arithmetic the transfer pass moves volume but never creates or
destroys it — each processed connection subtracts from its input exactly what
the `Fluid` combination adds to its output — so the total fluid volume over all
nodes is unchanged by `handle_fluid_transfer`, and also by a whole `tick`,
whose other two passes write only temperatures. -/
theorem total_volume_conserved (sim : Simulation) (sinA : ℚ → ℚ)
    (environment : Environment) (dt : ℚ) :
    totalVolume (sim.handle_fluid_transfer dt).nodes = totalVolume sim.nodes ∧
    totalVolume (sim.tick sinA environment dt).nodes = totalVolume sim.nodes := by
  constructor
  · exact foldl_transferStep_totalVolume dt sim.connections sim.nodes
  · have h3 := foldl_transferStep_totalVolume dt
      ((sim.handle_heat_losses environment dt).handle_solar_panels sinA environment dt).connections
      ((sim.handle_heat_losses environment dt).handle_solar_panels sinA environment dt).nodes
    have h2 := foldl_solarStep_totalVolume sinA environment dt
      (sim.handle_heat_losses environment dt).solar_panels
      (sim.handle_heat_losses environment dt).nodes
    have h1 := handle_heat_losses_totalVolume sim environment dt
    exact h3.trans (h2.trans h1)

/-- C10: the heat-loss and solar passes touch only node temperatures: every
node's fluid volume, capacity, insulation and position are unchanged, and both
passes leave the connection list and the panel attachments untouched. The
panel-id hypothesis reflects that the source would panic (never return) on an
out-of-bounds attachment. -/
theorem passes_change_only_temperatures (sim : Simulation) (sinA : ℚ → ℚ)
    (environment : Environment) (dt : ℚ)
    (_hpanels : ∀ p ∈ sim.solar_panels, p.1 < sim.nodes.length) :
    ((sim.handle_heat_losses environment dt).connections = sim.connections ∧
     (sim.handle_heat_losses environment dt).solar_panels = sim.solar_panels ∧
     ∀ i : ℕ, (sim.handle_heat_losses environment dt).nodes[i]?.map nonThermal =
       sim.nodes[i]?.map nonThermal) ∧
    ((sim.handle_solar_panels sinA environment dt).connections = sim.connections ∧
     (sim.handle_solar_panels sinA environment dt).solar_panels = sim.solar_panels ∧
     ∀ i : ℕ, (sim.handle_solar_panels sinA environment dt).nodes[i]?.map nonThermal =
       sim.nodes[i]?.map nonThermal) := by
  refine ⟨⟨rfl, rfl, ?_⟩, ⟨rfl, rfl, ?_⟩⟩
  · intro i
    rw [handle_heat_losses_getElem]
    cases sim.nodes[i]? <;> rfl
  · intro i
    exact foldl_solarStep_nonThermal sinA environment dt sim.solar_panels sim.nodes i

theorem passes_change_only_temperatures_witness :
    (simSolar.handle_solar_panels (fun _ => 1) envTest 1).nodes[1]?.map nonThermal =
      simSolar.nodes[1]?.map nonThermal ∧
    (simSolar.handle_heat_losses envTest 1).solar_panels = simSolar.solar_panels :=
  ⟨(passes_change_only_temperatures simSolar (fun _ => 1) envTest 1 (by decide)).2.2.2 1,
   (passes_change_only_temperatures simSolar (fun _ => 1) envTest 1 (by decide)).1.2.1⟩
